import Mathlib

/-!
Formal model of the `pid_shared` integration module (`src/__init__.py`).

The module defines `PidBaseClass`, a base entity wrapping an external PID
controller object, property accessors that mirror PID state (with NaN
filtering), a timer-registration coroutine, two abstract hook methods that
raise `NotImplementedError`, and module-level setup/unload functions that
forward to the host framework.  Host-framework and external-library calls
are modelled as explicit effect values; Python floats are modelled as an
inductive with an explicit NaN, since the module performs no float
arithmetic and only tests `math.isnan`.
-/

/-- Model of a Python float as used by this module: either NaN or an exact
numeric value.  The module performs no floating-point arithmetic; the only
operation applied to floats is `math.isnan`, so this abstraction is exact
for the code under study. -/
inductive PyFloat where
  | nan : PyFloat
  | num : ℚ → PyFloat
deriving DecidableEq, Repr

/-- Model of `math.isnan` restricted to values of type `PyFloat`. -/
def PyFloat.isnan : PyFloat → Bool
  | .nan => true
  | .num _ => false

/-- Model of `dvg_pid_controller.Constants`: the controller direction
constants used by the module (`PIDConst.DIRECT` is the default). -/
inductive PIDConst where
  | DIRECT : PIDConst
  | REVERSE : PIDConst
deriving DecidableEq, Repr

/-- Abstract state of the external `dvg_pid_controller.PID_Controller`
object, holding exactly the fields this module reads: the stored gains
`kp`, `ki`, `kd`, the `in_auto` flag, and the `last_input`, `output` and
`last_error` floats. -/
structure PID_Controller where
  kp : PyFloat
  ki : PyFloat
  kd : PyFloat
  controller_direction : PIDConst
  in_auto : Bool
  last_input : PyFloat
  output : PyFloat
  last_error : PyFloat
deriving DecidableEq, Repr

/-- Construction of the external PID object from the arguments the module
passes: `PID(k_p, k_i, k_d, direction)`.  The external library stores the
gains and direction; the dynamic fields start out with no cycle run yet. -/
def PID_Controller.init (k_p k_i k_d : PyFloat) (direction : PIDConst) :
    PID_Controller :=
  { kp := k_p, ki := k_i, kd := k_d, controller_direction := direction,
    in_auto := false, last_input := .nan, output := .nan, last_error := .nan }

/-- Abstract model of Python `datetime.timedelta` (external library): a
time interval.  The module never inspects its parts, it only stores it,
converts it with `str`, and hands it to the host framework timer. -/
structure Timedelta where
  seconds : Int
deriving DecidableEq, Repr

/-- Model of Python `str` applied to a `timedelta` value. -/
def Timedelta.pyStr (t : Timedelta) : String :=
  toString t.seconds

/-- The declared type of the `cycle_time` constructor argument:
`str | timedelta`. -/
inductive CycleTimeArg where
  | td : Timedelta → CycleTimeArg
  | ofStr : String → CycleTimeArg
deriving DecidableEq, Repr

/-- Python exceptions raised by operations of this module. -/
inductive PyError where
  | notImplementedError : PyError
  | typeError : PyError
deriving DecidableEq, Repr

/-- State of a `PidBaseClass` instance: the wrapped PID object, the stored
cycle interval `_attr_cycle_time`, and `_attr_last_cycle_start`, which is
initialised to `None` and (per the docstring of `_async_pid_cycle`) later
set by subclasses to a timestamp string. -/
structure PidBaseClass where
  _pid : PID_Controller
  _attr_cycle_time : Timedelta
  _attr_last_cycle_start : Option String
deriving DecidableEq, Repr

/-- Model of `PidBaseClass.__init__`.  It builds the wrapped PID object
from `k_p`, `k_i`, `k_d` and `direction`; a `timedelta` cycle_time is
stored unchanged, while any other value `v` is passed to
`timedelta(**v)` — for a string this raises `TypeError`, because `**`
requires a mapping.  `_attr_last_cycle_start` starts as `None`. -/
def PidBaseClass.init (k_p k_i k_d : PyFloat) (direction : PIDConst)
    (cycle_time : CycleTimeArg) : Except PyError PidBaseClass :=
  let pid := PID_Controller.init k_p k_i k_d direction
  match cycle_time with
  | .td t =>
      .ok { _pid := pid, _attr_cycle_time := t,
            _attr_last_cycle_start := none }
  | .ofStr _ => .error .typeError

/-- Construction of `PidBaseClass` with every argument left at its
default: `k_p=1`, `k_i=0.01`, `k_d=0`, `direction=PIDConst.DIRECT`,
`cycle_time="00:00:10"`. -/
def PidBaseClass.init_default : Except PyError PidBaseClass :=
  PidBaseClass.init (.num 1) (.num (1/100)) (.num 0) .DIRECT
    (.ofStr "00:00:10")

/-- Model of `PidBaseClass.filter_nan`: `None` for NaN, the value itself
otherwise. -/
def PidBaseClass.filter_nan (_self : PidBaseClass) (value : PyFloat) :
    Option PyFloat :=
  if value.isnan then none else some value

/-- Model of Python `str` applied to an `Optional[str]` value:
`str(None)` is the four-character string `"None"`, and `str` of a string
is that string. -/
def pyStrOfOptStr : Option String → String
  | none => "None"
  | some s => s

/-- Property `cycle_time`: `str(self._attr_cycle_time)`. -/
def PidBaseClass.cycle_time (self : PidBaseClass) : String :=
  self._attr_cycle_time.pyStr

/-- Property `last_cycle_start`: `str(self._attr_last_cycle_start)`. -/
def PidBaseClass.last_cycle_start (self : PidBaseClass) : String :=
  pyStrOfOptStr self._attr_last_cycle_start

/-- Property `k_p`: `self._pid.kp`. -/
def PidBaseClass.k_p (self : PidBaseClass) : PyFloat :=
  self._pid.kp

/-- Property `k_i`: `self._pid.ki`. -/
def PidBaseClass.k_i (self : PidBaseClass) : PyFloat :=
  self._pid.ki

/-- Property `k_d`: `self._pid.kd`. -/
def PidBaseClass.k_d (self : PidBaseClass) : PyFloat :=
  self._pid.kd

/-- Property `enable_pid`: `self._pid.in_auto`. -/
def PidBaseClass.enable_pid (self : PidBaseClass) : Bool :=
  self._pid.in_auto

/-- Property `pid_input`: `self.filter_nan(self._pid.last_input)`. -/
def PidBaseClass.pid_input (self : PidBaseClass) : Option PyFloat :=
  self.filter_nan self._pid.last_input

/-- Property `pid_output`: `self.filter_nan(self._pid.output)`. -/
def PidBaseClass.pid_output (self : PidBaseClass) : Option PyFloat :=
  self.filter_nan self._pid.output

/-- Property `pid_error`: `self.filter_nan(self._pid.last_error)`. -/
def PidBaseClass.pid_error (self : PidBaseClass) : Option PyFloat :=
  self.filter_nan self._pid.last_error

/-- Model of `async_enable`: raises `NotImplementedError` for every
instance and every keyword argument `value`. -/
def PidBaseClass.async_enable (_self : PidBaseClass) (_value : Bool) :
    Except PyError Unit :=
  .error .notImplementedError

/-- Model of `_async_pid_cycle`: raises `NotImplementedError` for every
instance and any positional arguments. -/
def PidBaseClass._async_pid_cycle (_self : PidBaseClass) :
    Except PyError Unit :=
  .error .notImplementedError

/-- Python values appearing in the state-attributes dictionary: strings,
floats, booleans, and `None`. -/
inductive PyValue where
  | pyNone : PyValue
  | pyStr : String → PyValue
  | pyFloat : PyFloat → PyValue
  | pyBool : Bool → PyValue
deriving DecidableEq, Repr

/-- Embedding of a `float | None` result into `PyValue`. -/
def PyValue.ofOptFloat : Option PyFloat → PyValue
  | none => .pyNone
  | some x => .pyFloat x

/-- Embedding of an `Optional[str]` field into `PyValue`. -/
def PyValue.ofOptStr : Option String → PyValue
  | none => .pyNone
  | some s => .pyStr s

/-- Modelled from the spec: the attribute name constant `ATTR_CYCLE_TIME`
from the integration's `const` module, which is not under `src/`; the
spec names the nine attributes (cycle time, Kp, Ki, Kd, input, output,
error, last cycle start, enable) and only their distinctness matters. -/
def ATTR_CYCLE_TIME : String := "cycle_time"

/-- Modelled from the spec: attribute name constant `ATTR_PID_KP` from
the missing `const` module. -/
def ATTR_PID_KP : String := "Kp"

/-- Modelled from the spec: attribute name constant `ATTR_PID_KI` from
the missing `const` module. -/
def ATTR_PID_KI : String := "Ki"

/-- Modelled from the spec: attribute name constant `ATTR_PID_KD` from
the missing `const` module. -/
def ATTR_PID_KD : String := "Kd"

/-- Modelled from the spec: attribute name constant `ATTR_PID_INPUT` from
the missing `const` module. -/
def ATTR_PID_INPUT : String := "input"

/-- Modelled from the spec: attribute name constant `ATTR_PID_OUTPUT`
from the missing `const` module. -/
def ATTR_PID_OUTPUT : String := "output"

/-- Modelled from the spec: attribute name constant `ATTR_PID_ERROR`
from the missing `const` module. -/
def ATTR_PID_ERROR : String := "error"

/-- Modelled from the spec: attribute name constant
`ATTR_LAST_CYCLE_START` from the missing `const` module. -/
def ATTR_LAST_CYCLE_START : String := "last_cycle_start"

/-- Modelled from the spec: attribute name constant `ATTR_PID_ENABLE`
from the missing `const` module. -/
def ATTR_PID_ENABLE : String := "enable"

/-- Model of the `pid_state_attributes` property: a dictionary built by
nine insertions in source order, reading the corresponding properties
(and, for last cycle start, the raw stored field
`self._attr_last_cycle_start`). -/
def PidBaseClass.pid_state_attributes (self : PidBaseClass) :
    List (String × PyValue) :=
  [(ATTR_CYCLE_TIME, .pyStr self.cycle_time),
   (ATTR_PID_KP, .pyFloat self.k_p),
   (ATTR_PID_KI, .pyFloat self.k_i),
   (ATTR_PID_KD, .pyFloat self.k_d),
   (ATTR_PID_INPUT, .ofOptFloat self.pid_input),
   (ATTR_PID_OUTPUT, .ofOptFloat self.pid_output),
   (ATTR_PID_ERROR, .ofOptFloat self.pid_error),
   (ATTR_LAST_CYCLE_START, .ofOptStr self._attr_last_cycle_start),
   (ATTR_PID_ENABLE, .pyBool self.enable_pid)]

/-- The callable this module passes to the host framework timer. -/
inductive Callback where
  | asyncPidCycle : Callback
deriving DecidableEq, Repr

/-- Arguments of one `async_track_time_interval` registration: the
callback, the period, and the `cancel_on_shutdown` flag.  The cancel
handle that the host framework returns is identified with the
registration itself. -/
structure TimeIntervalTimer where
  action : Callback
  interval : Timedelta
  cancel_on_shutdown : Bool
deriving DecidableEq, Repr

/-- Effects a `PidBaseClass` method requests from the host framework's
entity runtime. -/
inductive EntityEffect where
  | trackTimeInterval : TimeIntervalTimer → EntityEffect
  | asyncOnRemove : TimeIntervalTimer → EntityEffect
deriving DecidableEq, Repr

/-- Model of `_async_start_pid_cycle`: one call to
`async_track_time_interval(self.hass, self._async_pid_cycle,
self._attr_cycle_time, cancel_on_shutdown=True)`, whose returned cancel
handle is passed to `self.async_on_remove`. -/
def PidBaseClass._async_start_pid_cycle (self : PidBaseClass) :
    List EntityEffect :=
  let handle : TimeIntervalTimer :=
    ⟨.asyncPidCycle, self._attr_cycle_time, true⟩
  [.trackTimeInterval handle, .asyncOnRemove handle]

/-- Extracts the registration payload of a timer-registration effect. -/
def EntityEffect.registrationOf : EntityEffect → Option TimeIntervalTimer
  | .trackTimeInterval t => some t
  | .asyncOnRemove _ => none

/-- Extracts the handle of an `async_on_remove` effect. -/
def EntityEffect.removalOf : EntityEffect → Option TimeIntervalTimer
  | .trackTimeInterval _ => none
  | .asyncOnRemove t => some t

/-- Host-framework platforms; this module only names `NUMBER`. -/
inductive Platform where
  | NUMBER : Platform
deriving DecidableEq, Repr

/-- The module-level constant `PLATFORMS = [Platform.NUMBER]`. -/
def PLATFORMS : List Platform := [.NUMBER]

/-- A config entry, identified by its `entry_id`. -/
structure ConfigEntry where
  entry_id : String
deriving DecidableEq, Repr

/-- The update-listener callable this module registers on the entry. -/
inductive UpdateListener where
  | configEntryUpdateListener : UpdateListener
deriving DecidableEq, Repr

/-- Effects the module-level functions request from the host framework. -/
inductive HassEffect where
  | forwardEntrySetups : ConfigEntry → List Platform → HassEffect
  | addUpdateListener : ConfigEntry → UpdateListener → HassEffect
  | asyncOnUnload : ConfigEntry → UpdateListener → HassEffect
  | reloadEntry : String → HassEffect
  | unloadPlatforms : ConfigEntry → List Platform → HassEffect
deriving DecidableEq, Repr

/-- Model of `async_setup_entry`: forward the entry to `PLATFORMS`,
register `config_entry_update_listener` as the entry's update listener
(and its remover for unload), then `return True`. -/
def async_setup_entry (entry : ConfigEntry) : List HassEffect × Bool :=
  ([.forwardEntrySetups entry PLATFORMS,
    .addUpdateListener entry .configEntryUpdateListener,
    .asyncOnUnload entry .configEntryUpdateListener], true)

/-- Model of `config_entry_update_listener`: reload the entry by id. -/
def config_entry_update_listener (entry : ConfigEntry) : List HassEffect :=
  [.reloadEntry entry.entry_id]

/-- Model of `async_unload_entry`: one call to
`hass.config_entries.async_unload_platforms(entry, PLATFORMS)`, whose
boolean result (supplied by the host framework) is returned unchanged. -/
def async_unload_entry (entry : ConfigEntry) (unload_result : Bool) :
    List HassEffect × Bool :=
  ([.unloadPlatforms entry PLATFORMS], unload_result)

/-- State-passing reading of the `cycle_time` property: the getter's body
evaluated against the instance state, returning the value together with
the state the getter leaves behind. -/
def PidBaseClass.cycle_time_s (self : PidBaseClass) :
    String × PidBaseClass :=
  (self._attr_cycle_time.pyStr, self)

/-- State-passing reading of the `last_cycle_start` property. -/
def PidBaseClass.last_cycle_start_s (self : PidBaseClass) :
    String × PidBaseClass :=
  (pyStrOfOptStr self._attr_last_cycle_start, self)

/-- State-passing reading of the `k_p` property. -/
def PidBaseClass.k_p_s (self : PidBaseClass) : PyFloat × PidBaseClass :=
  (self._pid.kp, self)

/-- State-passing reading of the `k_i` property. -/
def PidBaseClass.k_i_s (self : PidBaseClass) : PyFloat × PidBaseClass :=
  (self._pid.ki, self)

/-- State-passing reading of the `k_d` property. -/
def PidBaseClass.k_d_s (self : PidBaseClass) : PyFloat × PidBaseClass :=
  (self._pid.kd, self)

/-- State-passing reading of the `enable_pid` property. -/
def PidBaseClass.enable_pid_s (self : PidBaseClass) :
    Bool × PidBaseClass :=
  (self._pid.in_auto, self)

/-- State-passing reading of the `pid_input` property. -/
def PidBaseClass.pid_input_s (self : PidBaseClass) :
    Option PyFloat × PidBaseClass :=
  (self.filter_nan self._pid.last_input, self)

/-- State-passing reading of the `pid_output` property. -/
def PidBaseClass.pid_output_s (self : PidBaseClass) :
    Option PyFloat × PidBaseClass :=
  (self.filter_nan self._pid.output, self)

/-- State-passing reading of the `pid_error` property. -/
def PidBaseClass.pid_error_s (self : PidBaseClass) :
    Option PyFloat × PidBaseClass :=
  (self.filter_nan self._pid.last_error, self)

/-- State-passing reading of `pid_state_attributes`: the nine insertions
of the getter body in source order, each property call threaded through
the instance state it receives. -/
def PidBaseClass.pid_state_attributes_s (self : PidBaseClass) :
    List (String × PyValue) × PidBaseClass :=
  let (v_ct, s1) := self.cycle_time_s
  let (v_kp, s2) := s1.k_p_s
  let (v_ki, s3) := s2.k_i_s
  let (v_kd, s4) := s3.k_d_s
  let (v_in, s5) := s4.pid_input_s
  let (v_out, s6) := s5.pid_output_s
  let (v_err, s7) := s6.pid_error_s
  let v_last := s7._attr_last_cycle_start
  let (v_en, s8) := s7.enable_pid_s
  ([(ATTR_CYCLE_TIME, .pyStr v_ct),
    (ATTR_PID_KP, .pyFloat v_kp),
    (ATTR_PID_KI, .pyFloat v_ki),
    (ATTR_PID_KD, .pyFloat v_kd),
    (ATTR_PID_INPUT, .ofOptFloat v_in),
    (ATTR_PID_OUTPUT, .ofOptFloat v_out),
    (ATTR_PID_ERROR, .ofOptFloat v_err),
    (ATTR_LAST_CYCLE_START, .ofOptStr v_last),
    (ATTR_PID_ENABLE, .pyBool v_en)], s8)

/-- C1: for every instance, each of `pid_input`, `pid_output` and
`pid_error` returns `None` when the underlying PID field (`last_input`,
`output`, `last_error`) is NaN and returns that field's value unchanged
otherwise, and each goes through `filter_nan`. -/
theorem claim_C1_nan_filtered_properties (inst : PidBaseClass) :
    (inst.pid_input =
      if inst._pid.last_input.isnan then none
      else some inst._pid.last_input) ∧
    (inst.pid_output =
      if inst._pid.output.isnan then none else some inst._pid.output) ∧
    (inst.pid_error =
      if inst._pid.last_error.isnan then none
      else some inst._pid.last_error) ∧
    inst.pid_input = inst.filter_nan inst._pid.last_input ∧
    inst.pid_output = inst.filter_nan inst._pid.output ∧
    inst.pid_error = inst.filter_nan inst._pid.last_error :=
  ⟨rfl, rfl, rfl, rfl, rfl, rfl⟩

/-- C2 counterexample: the two hook methods are not the only operations
in the class that raise an error — the constructor, called with its
default arguments, already raises `TypeError`. -/
theorem claim_C2_counterexample :
    ¬ (∀ e : PyError, PidBaseClass.init_default ≠ Except.error e) := by
  intro h
  exact h .typeError rfl

/-- C2 (amended): for every instance and every argument value,
`async_enable` raises `NotImplementedError` and `_async_pid_cycle`
raises `NotImplementedError`; they are the only methods that raise on
every call, but the constructor also raises `TypeError` whenever
`cycle_time` is a string, and raises nothing for a `timedelta`. -/
theorem claim_C2_not_implemented_hooks :
    (∀ (inst : PidBaseClass) (value : Bool),
      inst.async_enable value = Except.error PyError.notImplementedError) ∧
    (∀ inst : PidBaseClass,
      inst._async_pid_cycle = Except.error PyError.notImplementedError) ∧
    (∀ k_p k_i k_d direction s,
      PidBaseClass.init k_p k_i k_d direction (.ofStr s) =
        Except.error PyError.typeError) ∧
    (∀ k_p k_i k_d direction t, ∃ inst,
      PidBaseClass.init k_p k_i k_d direction (.td t) = Except.ok inst) :=
  ⟨fun _ _ => rfl, fun _ => rfl, fun _ _ _ _ _ => rfl,
   fun _ _ _ _ _ => ⟨_, rfl⟩⟩

/-- C3: the constructor passes `k_p`, `k_i`, `k_d` and `direction` to the
wrapped PID object, and the properties `k_p`, `k_i` and `k_d` return
that PID object's stored gains `kp`, `ki` and `kd` respectively. -/
theorem claim_C3_gains_wiring :
    (∀ k_p k_i k_d direction t, ∃ inst,
      PidBaseClass.init k_p k_i k_d direction (.td t) = Except.ok inst ∧
      inst._pid = PID_Controller.init k_p k_i k_d direction) ∧
    (∀ inst : PidBaseClass,
      inst.k_p = inst._pid.kp ∧ inst.k_i = inst._pid.ki ∧
      inst.k_d = inst._pid.kd) :=
  ⟨fun _ _ _ _ _ => ⟨_, rfl, rfl⟩, fun _ => ⟨rfl, rfl, rfl⟩⟩

/-- C4: `pid_state_attributes` holds exactly the nine attribute keys,
pairwise distinct, each mapped to the value of the corresponding
property (last cycle start to the raw stored field), and `enable_pid`
mirrors the PID object's `in_auto` flag. -/
theorem claim_C4_state_attributes (inst : PidBaseClass) :
    inst.pid_state_attributes.length = 9 ∧
    inst.pid_state_attributes.map Prod.fst =
      [ATTR_CYCLE_TIME, ATTR_PID_KP, ATTR_PID_KI, ATTR_PID_KD,
       ATTR_PID_INPUT, ATTR_PID_OUTPUT, ATTR_PID_ERROR,
       ATTR_LAST_CYCLE_START, ATTR_PID_ENABLE] ∧
    (inst.pid_state_attributes.map Prod.fst).Nodup ∧
    inst.pid_state_attributes.lookup ATTR_CYCLE_TIME =
      some (.pyStr inst.cycle_time) ∧
    inst.pid_state_attributes.lookup ATTR_PID_KP =
      some (.pyFloat inst.k_p) ∧
    inst.pid_state_attributes.lookup ATTR_PID_KI =
      some (.pyFloat inst.k_i) ∧
    inst.pid_state_attributes.lookup ATTR_PID_KD =
      some (.pyFloat inst.k_d) ∧
    inst.pid_state_attributes.lookup ATTR_PID_INPUT =
      some (.ofOptFloat inst.pid_input) ∧
    inst.pid_state_attributes.lookup ATTR_PID_OUTPUT =
      some (.ofOptFloat inst.pid_output) ∧
    inst.pid_state_attributes.lookup ATTR_PID_ERROR =
      some (.ofOptFloat inst.pid_error) ∧
    inst.pid_state_attributes.lookup ATTR_LAST_CYCLE_START =
      some (.ofOptStr inst._attr_last_cycle_start) ∧
    inst.pid_state_attributes.lookup ATTR_PID_ENABLE =
      some (.pyBool inst.enable_pid) ∧
    inst.enable_pid = inst._pid.in_auto := by
  refine ⟨rfl, rfl, ?_, rfl, rfl, rfl, rfl, rfl, rfl, rfl, rfl, rfl, rfl⟩
  have h : inst.pid_state_attributes.map Prod.fst =
      [ATTR_CYCLE_TIME, ATTR_PID_KP, ATTR_PID_KI, ATTR_PID_KD,
       ATTR_PID_INPUT, ATTR_PID_OUTPUT, ATTR_PID_ERROR,
       ATTR_LAST_CYCLE_START, ATTR_PID_ENABLE] := rfl
  rw [h]
  decide

/-- C5: `_async_start_pid_cycle` makes exactly one timer registration,
with `_async_pid_cycle` as the callback, the stored cycle interval as
the period and cancel-on-shutdown enabled, and registers exactly that
registration's cancel handle for removal; the two effects are all it
does. -/
theorem claim_C5_timer_registration (inst : PidBaseClass) :
    inst._async_start_pid_cycle.filterMap EntityEffect.registrationOf =
      [⟨Callback.asyncPidCycle, inst._attr_cycle_time, true⟩] ∧
    inst._async_start_pid_cycle.filterMap EntityEffect.removalOf =
      [⟨Callback.asyncPidCycle, inst._attr_cycle_time, true⟩] ∧
    inst._async_start_pid_cycle.length = 2 :=
  ⟨rfl, rfl, rfl⟩

/-- C6: `async_setup_entry` forwards the entry to the NUMBER platform,
registers `config_entry_update_listener` (which reloads the entry) as
the entry's update listener, and returns `True`; `async_unload_entry`
returns exactly the host framework's platform-unload result. -/
theorem claim_C6_setup_unload (entry : ConfigEntry) (unload_result : Bool) :
    PLATFORMS = [Platform.NUMBER] ∧
    (async_setup_entry entry).1 =
      [.forwardEntrySetups entry PLATFORMS,
       .addUpdateListener entry .configEntryUpdateListener,
       .asyncOnUnload entry .configEntryUpdateListener] ∧
    (async_setup_entry entry).2 = true ∧
    config_entry_update_listener entry = [.reloadEntry entry.entry_id] ∧
    (async_unload_entry entry unload_result).1 =
      [.unloadPlatforms entry PLATFORMS] ∧
    (async_unload_entry entry unload_result).2 = unload_result :=
  ⟨rfl, rfl, rfl, rfl, rfl, rfl⟩

/-- C7: a `timedelta` cycle_time is stored unchanged as the cycle
interval; every string cycle_time — the default `"00:00:10"` included —
makes the constructor raise `TypeError`. -/
theorem claim_C7_cycle_time_argument :
    (∀ k_p k_i k_d direction t, ∃ inst,
      PidBaseClass.init k_p k_i k_d direction (.td t) = Except.ok inst ∧
      inst._attr_cycle_time = t) ∧
    (∀ k_p k_i k_d direction s,
      PidBaseClass.init k_p k_i k_d direction (.ofStr s) =
        Except.error PyError.typeError) ∧
    PidBaseClass.init_default = Except.error PyError.typeError :=
  ⟨fun _ _ _ _ _ => ⟨_, rfl, rfl⟩, fun _ _ _ _ _ => rfl, rfl⟩

/-- C8: immediately after a successful construction the stored
last-cycle-start value is `None`, and the `last_cycle_start` property
then returns the four-character string `"None"`. -/
theorem claim_C8_initial_last_cycle_start :
    ∀ k_p k_i k_d direction t, ∃ inst,
      PidBaseClass.init k_p k_i k_d direction (.td t) = Except.ok inst ∧
      inst._attr_last_cycle_start = none ∧
      inst.last_cycle_start = "None" ∧
      inst.last_cycle_start.length = 4 :=
  fun _ _ _ _ _ => ⟨_, rfl, rfl, rfl, rfl⟩

/-- C9: reading `pid_state_attributes` or any of the properties leaves
the whole instance state — the wrapped PID object, the stored cycle
interval and the last-cycle-start value — unchanged, and the threaded
reading of `pid_state_attributes` computes the same dictionary as the
direct one. -/
theorem claim_C9_getters_preserve_state (inst : PidBaseClass) :
    inst.pid_state_attributes_s.2 = inst ∧
    inst.cycle_time_s.2 = inst ∧
    inst.last_cycle_start_s.2 = inst ∧
    inst.k_p_s.2 = inst ∧
    inst.k_i_s.2 = inst ∧
    inst.k_d_s.2 = inst ∧
    inst.enable_pid_s.2 = inst ∧
    inst.pid_input_s.2 = inst ∧
    inst.pid_output_s.2 = inst ∧
    inst.pid_error_s.2 = inst ∧
    inst.pid_state_attributes_s.1 = inst.pid_state_attributes :=
  ⟨rfl, rfl, rfl, rfl, rfl, rfl, rfl, rfl, rfl, rfl, rfl⟩
